import Mathlib

/-!
Shallow embedding of the simulation core of a WebGL tunnel-runner game
(source: the script split across src/unnamed/part_000 and src/unnamed/part_001;
part_001 holds the final versions of getDifficultyMultiplier, updateGame,
startGame and restartGame that this development models).

Modelling conventions:
* JavaScript numbers are modelled as exact rationals (ℚ).  Every numeric
  literal of the source is carried over exactly: 16.67 becomes 1667/100,
  0.002 becomes 1/500, 0.06 becomes 3/50, 1.8 becomes 9/5, 0.00001 becomes
  1/100000, and Math.PI becomes the exact rational value of the IEEE-754
  double closest to π.
* The mutable globals gameState, cameraPos and obstacles are gathered into
  one World record; cameraPos[1] is cameraY, cameraPos[2] is cameraZ.
* Math.random() samples are supplied from outside through a SpawnRng record
  of raw uniform draws, so updateGame is a pure function of state and inputs.
* The source compares Math.sqrt(dx*dx+dy*dy+dz*dz) < 0.5; since sqrt is
  monotone on nonnegative reals this is equivalent to the square comparison
  dx*dx+dy*dy+dz*dz < 1/4 used here.
* obstacles.forEach with splice inside the callback visits indices
  0 .. len-1 where len is the length at loop entry, skipping any index that
  is no longer populated; obstaclesIter reproduces exactly that semantics.
-/

/-- One entry of the obstacles array, as pushed by the spawner. -/
structure Obstacle where
  x : ℚ
  y : ℚ
  z : ℚ
  rotationX : ℚ
  rotationY : ℚ
  rotationZ : ℚ
  rotationSpeedX : ℚ
  rotationSpeedY : ℚ
  rotationSpeedZ : ℚ
deriving DecidableEq, Repr

/-- The whole mutable world: the gameState object plus cameraPos and the
obstacles array. -/
structure World where
  life : ℚ
  score : ℤ
  speed : ℚ
  playerY : ℚ
  playerVelocity : ℚ
  gameRunning : Bool
  showTitle : Bool
  time : ℚ
  cameraY : ℚ
  cameraZ : ℚ
  obstacles : List Obstacle
deriving DecidableEq, Repr

/-- The initial values of the globals (also the object restartGame installs). -/
def initialWorld : World :=
  { life := 100, score := 0, speed := 1/50, playerY := 0, playerVelocity := 0,
    gameRunning := false, showTitle := true, time := 0,
    cameraY := 0, cameraZ := 0, obstacles := [] }

/-- deltaTime / 16.67, the per-tick normalisation to a 60fps reference frame. -/
def norm60 (dt : ℚ) : ℚ := dt / (1667/100)

/-- getDifficultyMultiplier: 1 + score / 1000. -/
def getDifficultyMultiplier (w : World) : ℚ := 1 + (w.score : ℚ) / 1000

/-- Velocity update: playerVelocity += / -= 0.002 * (deltaTime/16.67) according
to the thrust signal (Space, Touch or MouseClick held). -/
def accel (thrust : Bool) (dt v : ℚ) : ℚ :=
  if thrust then v + (1/500) * norm60 dt else v - (1/500) * norm60 dt

/-- The clamp playerVelocity = Math.max(-0.06, Math.min(0.06, playerVelocity)). -/
def clampV (v : ℚ) : ℚ := max (-(3/50)) (min (3/50) v)

/-- The player-kinematics block: accelerate, clamp, integrate. -/
def playerMove (thrust : Bool) (dt : ℚ) (w : World) : World :=
  { w with
    playerVelocity := clampV (accel thrust dt w.playerVelocity),
    playerY := w.playerY + clampV (accel thrust dt w.playerVelocity) * norm60 dt }

/-- The wall-collision trigger: playerY > 1.8 || playerY < -1.8. -/
def wallHit (w : World) : Prop := w.playerY > 9/5 ∨ w.playerY < -(9/5)

instance (w : World) : Decidable (wallHit w) := by unfold wallHit; infer_instance

/-- The wall-collision block: damage 10 floored at 0, rebound velocity ±0.06
by the side of the tunnel, clamp playerY into [-1.8, 1.8]. -/
def wallCollision (w : World) : World :=
  if wallHit w then
    { w with
      life := max 0 (w.life - 10),
      playerVelocity := if w.playerY > 0 then -(3/50) else 3/50,
      playerY := max (-(9/5)) (min (9/5) w.playerY) }
  else w

/-- Camera update: cameraPos[1] = playerY; cameraPos[2] += speed * (dt/16.67). -/
def cameraUpdate (dt : ℚ) (w : World) : World :=
  { w with cameraY := w.playerY, cameraZ := w.cameraZ + w.speed * norm60 dt }

/-- Score update: score = Math.floor(cameraPos[2] * 10). -/
def scoreUpdate (w : World) : World :=
  { w with score := Int.floor (w.cameraZ * 10) }

/-- Speed update: speed = 0.02 + time * 0.00001. -/
def speedUpdate (w : World) : World :=
  { w with speed := 1/50 + w.time * (1/100000) }

/-- The raw Math.random() samples consumed by one spawn trial, in call order. -/
structure SpawnRng where
  roll : ℚ
  rx : ℚ
  ry : ℚ
  rotX : ℚ
  rotY : ℚ
  rotZ : ℚ
  rsX : ℚ
  rsY : ℚ
  rsZ : ℚ
deriving DecidableEq, Repr

/-- The exact rational value of the IEEE-754 double Math.PI. -/
def jsPI : ℚ := 884279719003555 / 281474976710656

/-- The obstacle object pushed on a successful spawn trial: x and y uniform in
[-1.5, 1.5], z = cameraPos[2] + 40, rotations uniform in [0, 2π), rotation
speeds uniform in [-0.032, 0.032). -/
def spawnObstacle (rng : SpawnRng) (camZ : ℚ) : Obstacle :=
  { x := (rng.rx - 1/2) * 3, y := (rng.ry - 1/2) * 3, z := camZ + 40,
    rotationX := rng.rotX * jsPI * 2,
    rotationY := rng.rotY * jsPI * 2,
    rotationZ := rng.rotZ * jsPI * 2,
    rotationSpeedX := (rng.rsX - 1/2) * (1/250) * 16,
    rotationSpeedY := (rng.rsY - 1/2) * (1/250) * 16,
    rotationSpeedZ := (rng.rsZ - 1/2) * (1/250) * 16 }

/-- The spawn trial: Math.random() < 0.01 * getDifficultyMultiplier pushes one
obstacle. -/
def spawnStep (rng : SpawnRng) (w : World) : World :=
  if rng.roll < (1/100) * getDifficultyMultiplier w then
    { w with obstacles := w.obstacles ++ [spawnObstacle rng w.cameraZ] }
  else w

/-- Per-obstacle rotation advance by rotationSpeed * (dt/16.67). -/
def rotateObstacle (dt : ℚ) (o : Obstacle) : Obstacle :=
  { o with
    rotationX := o.rotationX + o.rotationSpeedX * norm60 dt,
    rotationY := o.rotationY + o.rotationSpeedY * norm60 dt,
    rotationZ := o.rotationZ + o.rotationSpeedZ * norm60 dt }

/-- Obstacle-vs-player collision: distance from (0, playerY, cameraZ + 0.5)
below 0.5, expressed by the equivalent squared comparison. -/
def collides (w : World) (o : Obstacle) : Prop :=
  (o.x - 0) * (o.x - 0) + (o.y - w.playerY) * (o.y - w.playerY) +
    (o.z - (w.cameraZ + 1/2)) * (o.z - (w.cameraZ + 1/2)) < 1/4

instance (w : World) (o : Obstacle) : Decidable (collides w o) := by
  unfold collides; infer_instance

/-- The forEach callback body at index k: advance the rotation in place, then
splice on collision (damage 20 floored at 0), then splice when the obstacle is
more than 5 units behind the camera.  An index past the current length is
skipped, exactly as forEach skips deleted indices. -/
def processObstacle (dt : ℚ) (k : ℕ) (w : World) : World :=
  match w.obstacles[k]? with
  | none => w
  | some o =>
      let o1 := rotateObstacle dt o
      let obs1 := w.obstacles.set k o1
      let life2 := if collides w o1 then max 0 (w.life - 20) else w.life
      let obs2 := if collides w o1 then obs1.eraseIdx k else obs1
      let obs3 := if o1.z < w.cameraZ - 5 then obs2.eraseIdx k else obs2
      { w with life := life2, obstacles := obs3 }

/-- forEach over indices k, k+1, ..., k+n-1 (n is the fuel). -/
def obstaclesIter (dt : ℚ) : ℕ → ℕ → World → World
  | _, 0, w => w
  | k, n+1, w => obstaclesIter dt (k+1) n (processObstacle dt k w)

/-- The obstacle-update loop: obstacles.forEach over the length captured at
loop entry. -/
def obstaclesStep (dt : ℚ) (w : World) : World :=
  obstaclesIter dt 0 w.obstacles.length w

/-- End-of-tick check: if life <= 0 then gameRunning = false. -/
def gameOverCheck (w : World) : World :=
  if w.life ≤ 0 then { w with gameRunning := false } else w

/-- The body of updateGame once past the title/not-running early returns, in
source order: time accumulation, player movement, wall collision, camera,
score, speed, spawn trial, obstacle loop, game-over check. -/
def runTick (dt : ℚ) (thrust : Bool) (rng : SpawnRng) (w : World) : World :=
  gameOverCheck (obstaclesStep dt (spawnStep rng (speedUpdate (scoreUpdate
    (cameraUpdate dt (wallCollision (playerMove thrust dt
      { w with time := w.time + dt })))))))

/-- updateGame(deltaTime): early return while the title screen shows or the
game is not running, otherwise one full simulation tick. -/
def updateGame (dt : ℚ) (thrust : Bool) (rng : SpawnRng) (w : World) : World :=
  if w.showTitle then w
  else if w.gameRunning = false then w
  else runTick dt thrust rng w

/-- startGame: leave the title screen and start running (called only while the
title screen is showing). -/
def startGame (w : World) : World :=
  { w with showTitle := false, gameRunning := true }

/-- restartGame: install a fresh gameState object, reset cameraPos to
[0, 0, 0] and obstacles to []. -/
def restartGame (_w : World) : World := initialWorld

/-- The states reachable from page load through the operations of the core:
ticks with arbitrary inputs, startGame (guarded by the title screen, as in the
input handlers), and restartGame. -/
inductive Reachable : World → Prop where
  | init : Reachable initialWorld
  | tick (dt : ℚ) (thrust : Bool) (rng : SpawnRng) {w : World} :
      Reachable w → Reachable (updateGame dt thrust rng w)
  | start {w : World} : Reachable w → w.showTitle = true →
      Reachable (startGame w)
  | restart {w : World} : Reachable w → Reachable (restartGame w)

/-- The inductive invariant of reachable states. -/
def WorldInv (w : World) : Prop :=
  0 ≤ w.life ∧ w.life ≤ 100 ∧
  (w.showTitle = true → w.life = 100) ∧
  (w.showTitle = false → w.gameRunning = false → w.life = 0) ∧
  (w.life = 0 → w.gameRunning = false) ∧
  (-(9/5) ≤ w.playerY ∧ w.playerY ≤ 9/5) ∧
  w.score = Int.floor (w.cameraZ * 10)

/-! ### Frame lemmas: which fields each step leaves untouched -/

section Frames

variable (thrust : Bool) (dt : ℚ) (rng : SpawnRng) (w : World)

@[simp] lemma playerMove_life : (playerMove thrust dt w).life = w.life := rfl

@[simp] lemma playerMove_score : (playerMove thrust dt w).score = w.score := rfl

@[simp] lemma playerMove_speed : (playerMove thrust dt w).speed = w.speed := rfl

@[simp] lemma playerMove_gameRunning :
    (playerMove thrust dt w).gameRunning = w.gameRunning := rfl

@[simp] lemma playerMove_showTitle :
    (playerMove thrust dt w).showTitle = w.showTitle := rfl

@[simp] lemma playerMove_time : (playerMove thrust dt w).time = w.time := rfl

@[simp] lemma playerMove_cameraY : (playerMove thrust dt w).cameraY = w.cameraY := rfl

@[simp] lemma playerMove_cameraZ : (playerMove thrust dt w).cameraZ = w.cameraZ := rfl

@[simp] lemma playerMove_obstacles :
    (playerMove thrust dt w).obstacles = w.obstacles := rfl

@[simp] lemma wallCollision_score : (wallCollision w).score = w.score := by
  unfold wallCollision; split_ifs <;> rfl

@[simp] lemma wallCollision_speed : (wallCollision w).speed = w.speed := by
  unfold wallCollision; split_ifs <;> rfl

@[simp] lemma wallCollision_gameRunning :
    (wallCollision w).gameRunning = w.gameRunning := by
  unfold wallCollision; split_ifs <;> rfl

@[simp] lemma wallCollision_showTitle :
    (wallCollision w).showTitle = w.showTitle := by
  unfold wallCollision; split_ifs <;> rfl

@[simp] lemma wallCollision_time : (wallCollision w).time = w.time := by
  unfold wallCollision; split_ifs <;> rfl

@[simp] lemma wallCollision_cameraY : (wallCollision w).cameraY = w.cameraY := by
  unfold wallCollision; split_ifs <;> rfl

@[simp] lemma wallCollision_cameraZ : (wallCollision w).cameraZ = w.cameraZ := by
  unfold wallCollision; split_ifs <;> rfl

@[simp] lemma wallCollision_obstacles :
    (wallCollision w).obstacles = w.obstacles := by
  unfold wallCollision; split_ifs <;> rfl

@[simp] lemma cameraUpdate_life : (cameraUpdate dt w).life = w.life := rfl

@[simp] lemma cameraUpdate_score : (cameraUpdate dt w).score = w.score := rfl

@[simp] lemma cameraUpdate_speed : (cameraUpdate dt w).speed = w.speed := rfl

@[simp] lemma cameraUpdate_playerY : (cameraUpdate dt w).playerY = w.playerY := rfl

@[simp] lemma cameraUpdate_playerVelocity :
    (cameraUpdate dt w).playerVelocity = w.playerVelocity := rfl

@[simp] lemma cameraUpdate_gameRunning :
    (cameraUpdate dt w).gameRunning = w.gameRunning := rfl

@[simp] lemma cameraUpdate_showTitle :
    (cameraUpdate dt w).showTitle = w.showTitle := rfl

@[simp] lemma cameraUpdate_time : (cameraUpdate dt w).time = w.time := rfl

@[simp] lemma cameraUpdate_obstacles :
    (cameraUpdate dt w).obstacles = w.obstacles := rfl

@[simp] lemma cameraUpdate_cameraZ :
    (cameraUpdate dt w).cameraZ = w.cameraZ + w.speed * norm60 dt := rfl

@[simp] lemma scoreUpdate_life : (scoreUpdate w).life = w.life := rfl

@[simp] lemma scoreUpdate_speed : (scoreUpdate w).speed = w.speed := rfl

@[simp] lemma scoreUpdate_playerY : (scoreUpdate w).playerY = w.playerY := rfl

@[simp] lemma scoreUpdate_playerVelocity :
    (scoreUpdate w).playerVelocity = w.playerVelocity := rfl

@[simp] lemma scoreUpdate_gameRunning :
    (scoreUpdate w).gameRunning = w.gameRunning := rfl

@[simp] lemma scoreUpdate_showTitle : (scoreUpdate w).showTitle = w.showTitle := rfl

@[simp] lemma scoreUpdate_time : (scoreUpdate w).time = w.time := rfl

@[simp] lemma scoreUpdate_cameraY : (scoreUpdate w).cameraY = w.cameraY := rfl

@[simp] lemma scoreUpdate_cameraZ : (scoreUpdate w).cameraZ = w.cameraZ := rfl

@[simp] lemma scoreUpdate_obstacles : (scoreUpdate w).obstacles = w.obstacles := rfl

@[simp] lemma scoreUpdate_score :
    (scoreUpdate w).score = Int.floor (w.cameraZ * 10) := rfl

@[simp] lemma speedUpdate_life : (speedUpdate w).life = w.life := rfl

@[simp] lemma speedUpdate_score : (speedUpdate w).score = w.score := rfl

@[simp] lemma speedUpdate_playerY : (speedUpdate w).playerY = w.playerY := rfl

@[simp] lemma speedUpdate_playerVelocity :
    (speedUpdate w).playerVelocity = w.playerVelocity := rfl

@[simp] lemma speedUpdate_gameRunning :
    (speedUpdate w).gameRunning = w.gameRunning := rfl

@[simp] lemma speedUpdate_showTitle : (speedUpdate w).showTitle = w.showTitle := rfl

@[simp] lemma speedUpdate_time : (speedUpdate w).time = w.time := rfl

@[simp] lemma speedUpdate_cameraY : (speedUpdate w).cameraY = w.cameraY := rfl

@[simp] lemma speedUpdate_cameraZ : (speedUpdate w).cameraZ = w.cameraZ := rfl

@[simp] lemma speedUpdate_obstacles : (speedUpdate w).obstacles = w.obstacles := rfl

@[simp] lemma spawnStep_life : (spawnStep rng w).life = w.life := by
  unfold spawnStep; split_ifs <;> rfl

@[simp] lemma spawnStep_score : (spawnStep rng w).score = w.score := by
  unfold spawnStep; split_ifs <;> rfl

@[simp] lemma spawnStep_speed : (spawnStep rng w).speed = w.speed := by
  unfold spawnStep; split_ifs <;> rfl

@[simp] lemma spawnStep_playerY : (spawnStep rng w).playerY = w.playerY := by
  unfold spawnStep; split_ifs <;> rfl

@[simp] lemma spawnStep_playerVelocity :
    (spawnStep rng w).playerVelocity = w.playerVelocity := by
  unfold spawnStep; split_ifs <;> rfl

@[simp] lemma spawnStep_gameRunning :
    (spawnStep rng w).gameRunning = w.gameRunning := by
  unfold spawnStep; split_ifs <;> rfl

@[simp] lemma spawnStep_showTitle : (spawnStep rng w).showTitle = w.showTitle := by
  unfold spawnStep; split_ifs <;> rfl

@[simp] lemma spawnStep_time : (spawnStep rng w).time = w.time := by
  unfold spawnStep; split_ifs <;> rfl

@[simp] lemma spawnStep_cameraY : (spawnStep rng w).cameraY = w.cameraY := by
  unfold spawnStep; split_ifs <;> rfl

@[simp] lemma spawnStep_cameraZ : (spawnStep rng w).cameraZ = w.cameraZ := by
  unfold spawnStep; split_ifs <;> rfl

@[simp] lemma gameOverCheck_life : (gameOverCheck w).life = w.life := by
  unfold gameOverCheck; split_ifs <;> rfl

@[simp] lemma gameOverCheck_score : (gameOverCheck w).score = w.score := by
  unfold gameOverCheck; split_ifs <;> rfl

@[simp] lemma gameOverCheck_speed : (gameOverCheck w).speed = w.speed := by
  unfold gameOverCheck; split_ifs <;> rfl

@[simp] lemma gameOverCheck_playerY : (gameOverCheck w).playerY = w.playerY := by
  unfold gameOverCheck; split_ifs <;> rfl

@[simp] lemma gameOverCheck_playerVelocity :
    (gameOverCheck w).playerVelocity = w.playerVelocity := by
  unfold gameOverCheck; split_ifs <;> rfl

@[simp] lemma gameOverCheck_showTitle :
    (gameOverCheck w).showTitle = w.showTitle := by
  unfold gameOverCheck; split_ifs <;> rfl

@[simp] lemma gameOverCheck_time : (gameOverCheck w).time = w.time := by
  unfold gameOverCheck; split_ifs <;> rfl

@[simp] lemma gameOverCheck_cameraY : (gameOverCheck w).cameraY = w.cameraY := by
  unfold gameOverCheck; split_ifs <;> rfl

@[simp] lemma gameOverCheck_cameraZ : (gameOverCheck w).cameraZ = w.cameraZ := by
  unfold gameOverCheck; split_ifs <;> rfl

@[simp] lemma gameOverCheck_obstacles :
    (gameOverCheck w).obstacles = w.obstacles := by
  unfold gameOverCheck; split_ifs <;> rfl

lemma gameOverCheck_gameRunning :
    (gameOverCheck w).gameRunning =
      if w.life ≤ 0 then false else w.gameRunning := by
  unfold gameOverCheck; split_ifs <;> rfl

end Frames

/-! ### The obstacle loop: frame and life lemmas -/

section ObstacleLoop

variable (dt : ℚ)

@[simp] lemma processObstacle_score (k : ℕ) (w : World) :
    (processObstacle dt k w).score = w.score := by
  unfold processObstacle; cases w.obstacles[k]? <;> rfl

@[simp] lemma processObstacle_speed (k : ℕ) (w : World) :
    (processObstacle dt k w).speed = w.speed := by
  unfold processObstacle; cases w.obstacles[k]? <;> rfl

@[simp] lemma processObstacle_playerY (k : ℕ) (w : World) :
    (processObstacle dt k w).playerY = w.playerY := by
  unfold processObstacle; cases w.obstacles[k]? <;> rfl

@[simp] lemma processObstacle_playerVelocity (k : ℕ) (w : World) :
    (processObstacle dt k w).playerVelocity = w.playerVelocity := by
  unfold processObstacle; cases w.obstacles[k]? <;> rfl

@[simp] lemma processObstacle_gameRunning (k : ℕ) (w : World) :
    (processObstacle dt k w).gameRunning = w.gameRunning := by
  unfold processObstacle; cases w.obstacles[k]? <;> rfl

@[simp] lemma processObstacle_showTitle (k : ℕ) (w : World) :
    (processObstacle dt k w).showTitle = w.showTitle := by
  unfold processObstacle; cases w.obstacles[k]? <;> rfl

@[simp] lemma processObstacle_time (k : ℕ) (w : World) :
    (processObstacle dt k w).time = w.time := by
  unfold processObstacle; cases w.obstacles[k]? <;> rfl

@[simp] lemma processObstacle_cameraY (k : ℕ) (w : World) :
    (processObstacle dt k w).cameraY = w.cameraY := by
  unfold processObstacle; cases w.obstacles[k]? <;> rfl

@[simp] lemma processObstacle_cameraZ (k : ℕ) (w : World) :
    (processObstacle dt k w).cameraZ = w.cameraZ := by
  unfold processObstacle; cases w.obstacles[k]? <;> rfl

lemma processObstacle_life_bounds (k : ℕ) (w : World) (h : 0 ≤ w.life) :
    0 ≤ (processObstacle dt k w).life ∧ (processObstacle dt k w).life ≤ w.life := by
  unfold processObstacle
  cases w.obstacles[k]?
  · exact ⟨h, le_refl _⟩
  · dsimp only
    split_ifs with hc
    · exact ⟨le_max_left 0 _, max_le h (by linarith)⟩
    · exact ⟨h, le_refl _⟩

lemma obstaclesIter_zero (k : ℕ) (w : World) : obstaclesIter dt k 0 w = w := rfl

lemma obstaclesIter_succ (k n : ℕ) (w : World) :
    obstaclesIter dt k (n+1) w = obstaclesIter dt (k+1) n (processObstacle dt k w) :=
  rfl

@[simp] lemma obstaclesIter_score (n : ℕ) :
    ∀ (k : ℕ) (w : World), (obstaclesIter dt k n w).score = w.score := by
  induction n with
  | zero => intro k w; rfl
  | succ n ih => intro k w; rw [obstaclesIter_succ, ih, processObstacle_score]

@[simp] lemma obstaclesIter_speed (n : ℕ) :
    ∀ (k : ℕ) (w : World), (obstaclesIter dt k n w).speed = w.speed := by
  induction n with
  | zero => intro k w; rfl
  | succ n ih => intro k w; rw [obstaclesIter_succ, ih, processObstacle_speed]

@[simp] lemma obstaclesIter_playerY (n : ℕ) :
    ∀ (k : ℕ) (w : World), (obstaclesIter dt k n w).playerY = w.playerY := by
  induction n with
  | zero => intro k w; rfl
  | succ n ih => intro k w; rw [obstaclesIter_succ, ih, processObstacle_playerY]

@[simp] lemma obstaclesIter_playerVelocity (n : ℕ) :
    ∀ (k : ℕ) (w : World), (obstaclesIter dt k n w).playerVelocity = w.playerVelocity := by
  induction n with
  | zero => intro k w; rfl
  | succ n ih => intro k w; rw [obstaclesIter_succ, ih, processObstacle_playerVelocity]

@[simp] lemma obstaclesIter_gameRunning (n : ℕ) :
    ∀ (k : ℕ) (w : World), (obstaclesIter dt k n w).gameRunning = w.gameRunning := by
  induction n with
  | zero => intro k w; rfl
  | succ n ih => intro k w; rw [obstaclesIter_succ, ih, processObstacle_gameRunning]

@[simp] lemma obstaclesIter_showTitle (n : ℕ) :
    ∀ (k : ℕ) (w : World), (obstaclesIter dt k n w).showTitle = w.showTitle := by
  induction n with
  | zero => intro k w; rfl
  | succ n ih => intro k w; rw [obstaclesIter_succ, ih, processObstacle_showTitle]

@[simp] lemma obstaclesIter_time (n : ℕ) :
    ∀ (k : ℕ) (w : World), (obstaclesIter dt k n w).time = w.time := by
  induction n with
  | zero => intro k w; rfl
  | succ n ih => intro k w; rw [obstaclesIter_succ, ih, processObstacle_time]

@[simp] lemma obstaclesIter_cameraY (n : ℕ) :
    ∀ (k : ℕ) (w : World), (obstaclesIter dt k n w).cameraY = w.cameraY := by
  induction n with
  | zero => intro k w; rfl
  | succ n ih => intro k w; rw [obstaclesIter_succ, ih, processObstacle_cameraY]

@[simp] lemma obstaclesIter_cameraZ (n : ℕ) :
    ∀ (k : ℕ) (w : World), (obstaclesIter dt k n w).cameraZ = w.cameraZ := by
  induction n with
  | zero => intro k w; rfl
  | succ n ih => intro k w; rw [obstaclesIter_succ, ih, processObstacle_cameraZ]

lemma obstaclesIter_life_bounds (n : ℕ) :
    ∀ (k : ℕ) (w : World), 0 ≤ w.life →
      0 ≤ (obstaclesIter dt k n w).life ∧ (obstaclesIter dt k n w).life ≤ w.life := by
  induction n with
  | zero => intro k w h; exact ⟨h, le_refl _⟩
  | succ n ih =>
      intro k w h
      obtain ⟨h1, h2⟩ := processObstacle_life_bounds dt k w h
      obtain ⟨h3, h4⟩ := ih (k+1) (processObstacle dt k w) h1
      rw [obstaclesIter_succ]
      exact ⟨h3, le_trans h4 h2⟩

@[simp] lemma obstaclesStep_score (w : World) :
    (obstaclesStep dt w).score = w.score := by
  unfold obstaclesStep; rw [obstaclesIter_score]

@[simp] lemma obstaclesStep_speed (w : World) :
    (obstaclesStep dt w).speed = w.speed := by
  unfold obstaclesStep; rw [obstaclesIter_speed]

@[simp] lemma obstaclesStep_playerY (w : World) :
    (obstaclesStep dt w).playerY = w.playerY := by
  unfold obstaclesStep; rw [obstaclesIter_playerY]

@[simp] lemma obstaclesStep_playerVelocity (w : World) :
    (obstaclesStep dt w).playerVelocity = w.playerVelocity := by
  unfold obstaclesStep; rw [obstaclesIter_playerVelocity]

@[simp] lemma obstaclesStep_gameRunning (w : World) :
    (obstaclesStep dt w).gameRunning = w.gameRunning := by
  unfold obstaclesStep; rw [obstaclesIter_gameRunning]

@[simp] lemma obstaclesStep_showTitle (w : World) :
    (obstaclesStep dt w).showTitle = w.showTitle := by
  unfold obstaclesStep; rw [obstaclesIter_showTitle]

@[simp] lemma obstaclesStep_time (w : World) :
    (obstaclesStep dt w).time = w.time := by
  unfold obstaclesStep; rw [obstaclesIter_time]

@[simp] lemma obstaclesStep_cameraY (w : World) :
    (obstaclesStep dt w).cameraY = w.cameraY := by
  unfold obstaclesStep; rw [obstaclesIter_cameraY]

@[simp] lemma obstaclesStep_cameraZ (w : World) :
    (obstaclesStep dt w).cameraZ = w.cameraZ := by
  unfold obstaclesStep; rw [obstaclesIter_cameraZ]

lemma obstaclesStep_life_bounds (w : World) (h : 0 ≤ w.life) :
    0 ≤ (obstaclesStep dt w).life ∧ (obstaclesStep dt w).life ≤ w.life := by
  unfold obstaclesStep; exact obstaclesIter_life_bounds dt _ 0 w h

end ObstacleLoop

/-! ### Wall resolution, tick branches and composite tick projections -/

lemma wallCollision_playerY_bounds (w : World) :
    -(9/5) ≤ (wallCollision w).playerY ∧ (wallCollision w).playerY ≤ 9/5 := by
  unfold wallCollision
  split_ifs with h h2
  · exact ⟨le_max_left _ _, max_le (by norm_num) (min_le_left _ _)⟩
  · exact ⟨le_max_left _ _, max_le (by norm_num) (min_le_left _ _)⟩
  · unfold wallHit at h
    push_neg at h
    exact ⟨h.2, h.1⟩

lemma wallCollision_life_bounds (w : World) (h : 0 ≤ w.life) :
    0 ≤ (wallCollision w).life ∧ (wallCollision w).life ≤ w.life := by
  unfold wallCollision
  split_ifs with hw hy
  · exact ⟨le_max_left 0 _, max_le h (by linarith)⟩
  · exact ⟨le_max_left 0 _, max_le h (by linarith)⟩
  · exact ⟨h, le_refl _⟩

lemma clampV_le (v : ℚ) : clampV v ≤ 3/50 :=
  max_le (by norm_num) (min_le_left _ _)

lemma wallCollision_playerVelocity_le (w : World)
    (h : w.playerVelocity ≤ 3/50) : (wallCollision w).playerVelocity ≤ 3/50 := by
  unfold wallCollision
  split_ifs with hw hy
  · norm_num
  · norm_num
  · exact h

lemma updateGame_title (dt : ℚ) (thrust : Bool) (rng : SpawnRng) (w : World)
    (h : w.showTitle = true) : updateGame dt thrust rng w = w := by
  unfold updateGame; simp [h]

lemma updateGame_notRunning (dt : ℚ) (thrust : Bool) (rng : SpawnRng) (w : World)
    (h : w.gameRunning = false) : updateGame dt thrust rng w = w := by
  unfold updateGame; simp [h]

lemma updateGame_run (dt : ℚ) (thrust : Bool) (rng : SpawnRng) (w : World)
    (hT : w.showTitle = false) (hR : w.gameRunning = true) :
    updateGame dt thrust rng w = runTick dt thrust rng w := by
  unfold updateGame; simp [hT, hR]

lemma runTick_playerY (dt : ℚ) (thrust : Bool) (rng : SpawnRng) (w : World) :
    (runTick dt thrust rng w).playerY =
      (wallCollision (playerMove thrust dt { w with time := w.time + dt })).playerY := by
  unfold runTick; simp

lemma runTick_playerVelocity (dt : ℚ) (thrust : Bool) (rng : SpawnRng) (w : World) :
    (runTick dt thrust rng w).playerVelocity =
      (wallCollision (playerMove thrust dt { w with time := w.time + dt })).playerVelocity := by
  unfold runTick; simp

lemma runTick_cameraZ (dt : ℚ) (thrust : Bool) (rng : SpawnRng) (w : World) :
    (runTick dt thrust rng w).cameraZ = w.cameraZ + w.speed * norm60 dt := by
  unfold runTick; simp

lemma runTick_score (dt : ℚ) (thrust : Bool) (rng : SpawnRng) (w : World) :
    (runTick dt thrust rng w).score =
      Int.floor ((w.cameraZ + w.speed * norm60 dt) * 10) := by
  unfold runTick; simp

lemma runTick_showTitle (dt : ℚ) (thrust : Bool) (rng : SpawnRng) (w : World) :
    (runTick dt thrust rng w).showTitle = w.showTitle := by
  unfold runTick; simp

lemma runTick_life_bounds (dt : ℚ) (thrust : Bool) (rng : SpawnRng) (w : World)
    (h : 0 ≤ w.life) :
    0 ≤ (runTick dt thrust rng w).life ∧ (runTick dt thrust rng w).life ≤ w.life := by
  unfold runTick
  rw [gameOverCheck_life]
  have h1 : 0 ≤ (playerMove thrust dt { w with time := w.time + dt }).life := by
    rw [playerMove_life]; exact h
  obtain ⟨h2, h3⟩ :=
    wallCollision_life_bounds (playerMove thrust dt { w with time := w.time + dt }) h1
  have h4 : 0 ≤ (spawnStep rng (speedUpdate (scoreUpdate (cameraUpdate dt
      (wallCollision (playerMove thrust dt { w with time := w.time + dt })))))).life := by
    simpa using h2
  obtain ⟨h5, h6⟩ := obstaclesStep_life_bounds dt _ h4
  refine ⟨h5, le_trans h6 ?_⟩
  simpa using le_trans h3 (le_refl _)

lemma runTick_gameRunning (dt : ℚ) (thrust : Bool) (rng : SpawnRng) (w : World) :
    (runTick dt thrust rng w).gameRunning =
      if (runTick dt thrust rng w).life ≤ 0 then false else w.gameRunning := by
  unfold runTick
  rw [gameOverCheck_gameRunning, gameOverCheck_life]
  congr 1
  simp

/-! ### The inductive invariant holds at every reachable state -/

lemma worldInv_initial : WorldInv initialWorld := by
  unfold WorldInv initialWorld
  norm_num

lemma worldInv_tick (dt : ℚ) (thrust : Bool) (rng : SpawnRng) (w : World)
    (h : WorldInv w) : WorldInv (updateGame dt thrust rng w) := by
  by_cases hT : w.showTitle = true
  · rw [updateGame_title dt thrust rng w hT]; exact h
  · rw [Bool.not_eq_true] at hT
    by_cases hR : w.gameRunning = true
    · rw [updateGame_run dt thrust rng w hT hR]
      obtain ⟨h1, h2, _h3, _h4, _h5, _h6, _h7⟩ := h
      obtain ⟨hl0, hl1⟩ := runTick_life_bounds dt thrust rng w h1
      refine ⟨hl0, le_trans hl1 h2, ?_, ?_, ?_, ?_, ?_⟩
      · intro hst
        rw [runTick_showTitle] at hst
        rw [hT] at hst
        exact absurd hst (by simp)
      · intro _ hgr
        rw [runTick_gameRunning] at hgr
        by_cases hle : (runTick dt thrust rng w).life ≤ 0
        · exact le_antisymm hle hl0
        · rw [if_neg hle, hR] at hgr
          exact absurd hgr (by simp)
      · intro hz
        rw [runTick_gameRunning, hz]
        norm_num
      · rw [runTick_playerY]
        exact wallCollision_playerY_bounds _
      · rw [runTick_score, runTick_cameraZ]
    · rw [Bool.not_eq_true] at hR
      rw [updateGame_notRunning dt thrust rng w hR]; exact h

lemma worldInv_start (w : World) (h : WorldInv w) (hT : w.showTitle = true) :
    WorldInv (startGame w) := by
  obtain ⟨h1, h2, h3, _h4, _h5, h6, h7⟩ := h
  have hlife : w.life = 100 := h3 hT
  refine ⟨h1, h2, ?_, ?_, ?_, h6, h7⟩
  · intro hst
    exact absurd hst (by simp [startGame])
  · intro _ hgr
    exact absurd hgr (by simp [startGame])
  · intro hz
    unfold startGame at hz
    dsimp at hz
    rw [hlife] at hz
    norm_num at hz

lemma reachable_worldInv (w : World) (h : Reachable w) : WorldInv w := by
  induction h with
  | init => exact worldInv_initial
  | tick dt thrust rng _ ih => exact worldInv_tick dt thrust rng _ ih
  | start _ hT ih => exact worldInv_start _ ih hT
  | restart _ _ => exact worldInv_initial

/-! ### Concrete states and inputs used by witnesses and counterexamples -/

/-- A SpawnRng whose trial sample 1 is never below the spawn rate, so no
obstacle spawns. -/
def rng0 : SpawnRng :=
  { roll := 1, rx := 0, ry := 0, rotX := 0, rotY := 0, rotZ := 0,
    rsX := 0, rsY := 0, rsZ := 0 }

/-- The state right after pressing start on a fresh page: RUNNING with all
fields at their initial values. -/
def runningWorld : World := startGame initialWorld

/-- A RUNNING state resting against the upper wall at full upward speed. -/
def wWall : World :=
  { life := 100, score := 0, speed := 1/50, playerY := 9/5, playerVelocity := 3/50,
    gameRunning := true, showTitle := false, time := 0,
    cameraY := 9/5, cameraZ := 0, obstacles := [] }

/-- The kinematics result of one 16.67ms thrust tick from wWall: the offset
integrates to 93/50, beyond the wall bound. -/
def w1Wall : World := playerMove true (1667/100) { wWall with time := wWall.time + 1667/100 }

/-! ### Claim theorems -/

/-- C2: at every reachable state, life stays within [0, 100]; a state with
life 0 is never still running at the end of a tick (the phase has moved to
GAME_OVER, i.e. gameRunning is false), and conversely a GAME_OVER state
(title off, not running) has life exactly 0. -/
theorem c2_life_bounds_gameover (w : World) (h : Reachable w) :
    0 ≤ w.life ∧ w.life ≤ 100 ∧
    (w.life = 0 → w.gameRunning = false) ∧
    (w.showTitle = false → w.gameRunning = false → w.life = 0) := by
  obtain ⟨h1, h2, _h3, h4, h5, _h6, _h7⟩ := reachable_worldInv w h
  exact ⟨h1, h2, h5, h4⟩

/-- Witness for C2 at the initial state. -/
theorem c2_life_bounds_gameover_witness :
    0 ≤ initialWorld.life ∧ initialWorld.life ≤ 100 ∧
    (initialWorld.life = 0 → initialWorld.gameRunning = false) ∧
    (initialWorld.showTitle = false → initialWorld.gameRunning = false →
      initialWorld.life = 0) :=
  c2_life_bounds_gameover initialWorld Reachable.init

/-- C3: at the end of every tick the player offset lies in [-1.8, 1.8] (every
reachable state satisfies the bound), and the wall-resolution step clamps any
intermediate out-of-range offset back into the band before the tick completes. -/
theorem c3_playerY_bounds (w : World) (h : Reachable w) :
    (-(9/5) ≤ w.playerY ∧ w.playerY ≤ 9/5) ∧
    ∀ v : World, -(9/5) ≤ (wallCollision v).playerY ∧ (wallCollision v).playerY ≤ 9/5 := by
  obtain ⟨_h1, _h2, _h3, _h4, _h5, h6, _h7⟩ := reachable_worldInv w h
  exact ⟨h6, fun v => wallCollision_playerY_bounds v⟩

/-- Witness for C3: the bound at the initial state, and the clamp applied to
the wall state wWall. -/
theorem c3_playerY_bounds_witness :
    (-(9/5) ≤ initialWorld.playerY ∧ initialWorld.playerY ≤ 9/5) ∧
    (-(9/5) ≤ (wallCollision wWall).playerY ∧ (wallCollision wWall).playerY ≤ 9/5) :=
  ⟨(c3_playerY_bounds initialWorld Reachable.init).1,
   (c3_playerY_bounds initialWorld Reachable.init).2 wWall⟩

/-- C4: score equals floor(cameraDistance * 10) immediately after the score
update of a tick, and the equation still holds at every reachable
(end-of-tick) observation point, so the two derived quantities never disagree. -/
theorem c4_score_floor (w : World) (h : Reachable w) :
    w.score = Int.floor (w.cameraZ * 10) ∧
    ∀ v : World, (scoreUpdate v).score = Int.floor ((scoreUpdate v).cameraZ * 10) := by
  obtain ⟨_h1, _h2, _h3, _h4, _h5, _h6, h7⟩ := reachable_worldInv w h
  exact ⟨h7, fun v => rfl⟩

/-- Witness for C4: the equation at the initial state and after a score
update of the wall state wWall. -/
theorem c4_score_floor_witness :
    initialWorld.score = Int.floor (initialWorld.cameraZ * 10) ∧
    (scoreUpdate wWall).score = Int.floor ((scoreUpdate wWall).cameraZ * 10) :=
  ⟨(c4_score_floor initialWorld Reachable.init).1,
   (c4_score_floor initialWorld Reachable.init).2 wWall⟩

/-- C7: while the title screen shows, or while the game is not running (the
GAME_OVER phase), a tick leaves the entire world state unchanged: no
advancement step runs. -/
theorem c7_tick_noop (w : World) (dt : ℚ) (thrust : Bool) (rng : SpawnRng)
    (h : w.showTitle = true ∨ w.gameRunning = false) :
    updateGame dt thrust rng w = w := by
  rcases h with h | h
  · exact updateGame_title dt thrust rng w h
  · exact updateGame_notRunning dt thrust rng w h

/-- Witness for C7 at the initial (title) state. -/
theorem c7_tick_noop_witness :
    updateGame (1667/100) true rng0 initialWorld = initialWorld :=
  c7_tick_noop initialWorld (1667/100) true rng0 (Or.inl rfl)

/-- C8: restartGame resets every field of the world to its initial value
(life 100, score 0, speed 0.02, offset 0, velocity 0, camera 0, time 0,
no obstacles, title phase) from any starting state, and is therefore
idempotent. -/
theorem c8_restart_reset (w : World) :
    restartGame w = initialWorld ∧
    (restartGame w).life = 100 ∧ (restartGame w).score = 0 ∧
    (restartGame w).speed = 1/50 ∧ (restartGame w).playerY = 0 ∧
    (restartGame w).playerVelocity = 0 ∧ (restartGame w).cameraZ = 0 ∧
    (restartGame w).time = 0 ∧ (restartGame w).obstacles = [] ∧
    (restartGame w).showTitle = true ∧ (restartGame w).gameRunning = false ∧
    restartGame (restartGame w) = restartGame w :=
  ⟨rfl, rfl, rfl, rfl, rfl, rfl, rfl, rfl, rfl, rfl, rfl, rfl⟩

/-- C9: a tick never increases life: starting from any state with
nonnegative life, the post-tick life is at most the pre-tick life and still
nonnegative; moreover every single change to life inside a tick is either a
no-change, the wall damage max 0 (life - 10) or the obstacle damage
max 0 (life - 20). -/
theorem c9_life_monotone (w : World) (dt : ℚ) (thrust : Bool) (rng : SpawnRng)
    (h : 0 ≤ w.life) :
    ((updateGame dt thrust rng w).life ≤ w.life ∧
     0 ≤ (updateGame dt thrust rng w).life) ∧
    ((wallCollision w).life = w.life ∨
     (wallCollision w).life = max 0 (w.life - 10)) ∧
    ∀ k : ℕ, (processObstacle dt k w).life = w.life ∨
      (processObstacle dt k w).life = max 0 (w.life - 20) := by
  refine ⟨?_, ?_, ?_⟩
  · by_cases hT : w.showTitle = true
    · rw [updateGame_title dt thrust rng w hT]; exact ⟨le_refl _, h⟩
    · rw [Bool.not_eq_true] at hT
      by_cases hR : w.gameRunning = true
      · rw [updateGame_run dt thrust rng w hT hR]
        obtain ⟨a, b⟩ := runTick_life_bounds dt thrust rng w h
        exact ⟨b, a⟩
      · rw [Bool.not_eq_true] at hR
        rw [updateGame_notRunning dt thrust rng w hR]; exact ⟨le_refl _, h⟩
  · unfold wallCollision
    split_ifs with hw hy
    · exact Or.inr rfl
    · exact Or.inr rfl
    · exact Or.inl rfl
  · intro k
    unfold processObstacle
    cases w.obstacles[k]?
    · exact Or.inl rfl
    · dsimp only
      split_ifs with hc
      · exact Or.inr rfl
      · exact Or.inl rfl

/-- Witness for C9 on a running tick from the fresh running state. -/
theorem c9_life_monotone_witness :
    ((updateGame (1667/100) false rng0 runningWorld).life ≤ runningWorld.life ∧
     0 ≤ (updateGame (1667/100) false rng0 runningWorld).life) ∧
    ((wallCollision runningWorld).life = runningWorld.life ∨
     (wallCollision runningWorld).life = max 0 (runningWorld.life - 10)) ∧
    ((processObstacle (1667/100) 0 runningWorld).life = runningWorld.life ∨
     (processObstacle (1667/100) 0 runningWorld).life = max 0 (runningWorld.life - 20)) := by
  have h := c9_life_monotone runningWorld (1667/100) false rng0
    (by norm_num [runningWorld, startGame, initialWorld])
  exact ⟨h.1, h.2.1, h.2.2 0⟩

lemma runTick_speed (dt : ℚ) (thrust : Bool) (rng : SpawnRng) (w : World) :
    (runTick dt thrust rng w).speed = 1/50 + (w.time + dt) * (1/100000) := by
  unfold runTick; simp [speedUpdate]

lemma runTick_time (dt : ℚ) (thrust : Bool) (rng : SpawnRng) (w : World) :
    (runTick dt thrust rng w).time = w.time + dt := by
  unfold runTick; simp

/-- C1: on a RUNNING tick whose integrated offset exceeds the bound 1.8 in
absolute value, the wall-resolution step reduces life by exactly 10 floored
at 0, sets the velocity to -sign(playerOffset) * 0.06 independently of the
incoming speed, and clamps the offset back into [-1.8, 1.8]; the clamped
offset and rebound velocity survive to the end of the tick. -/
theorem c1_wall_resolution (w w1 : World) (dt : ℚ) (thrust : Bool) (rng : SpawnRng)
    (hT : w.showTitle = false) (hR : w.gameRunning = true)
    (hw1 : playerMove thrust dt { w with time := w.time + dt } = w1)
    (hoff : 9/5 < |w1.playerY|) :
    (wallCollision w1).life = max 0 (w1.life - 10) ∧
    (wallCollision w1).playerVelocity = -(SignType.sign w1.playerY : ℚ) * (3/50) ∧
    (updateGame dt thrust rng w).playerVelocity = (wallCollision w1).playerVelocity ∧
    (updateGame dt thrust rng w).playerY = max (-(9/5)) (min (9/5) w1.playerY) ∧
    -(9/5) ≤ (updateGame dt thrust rng w).playerY ∧
    (updateGame dt thrust rng w).playerY ≤ 9/5 := by
  have hhit : wallHit w1 := by
    unfold wallHit
    rcases lt_abs.mp hoff with h | h
    · exact Or.inl h
    · exact Or.inr (by linarith)
  refine ⟨?_, ?_, ?_, ?_, ?_, ?_⟩
  · unfold wallCollision
    rw [if_pos hhit]
  · unfold wallCollision
    rw [if_pos hhit]
    rcases lt_abs.mp hoff with h | h
    · have hpos : 0 < w1.playerY := by linarith
      have hs : SignType.sign w1.playerY = 1 := sign_pos hpos
      show (if w1.playerY > 0 then -(3/50) else 3/50) = -(SignType.sign w1.playerY : ℚ) * (3/50)
      rw [if_pos hpos, hs]
      norm_num
    · have hneg : w1.playerY < 0 := by linarith
      have hs : SignType.sign w1.playerY = -1 := sign_neg hneg
      show (if w1.playerY > 0 then -(3/50) else 3/50) = -(SignType.sign w1.playerY : ℚ) * (3/50)
      rw [if_neg (by linarith : ¬ w1.playerY > 0), hs]
      norm_num
  · rw [updateGame_run dt thrust rng w hT hR, runTick_playerVelocity, hw1]
  · rw [updateGame_run dt thrust rng w hT hR, runTick_playerY, hw1]
    unfold wallCollision
    rw [if_pos hhit]
  · rw [updateGame_run dt thrust rng w hT hR, runTick_playerY, hw1]
    exact (wallCollision_playerY_bounds w1).1
  · rw [updateGame_run dt thrust rng w hT hR, runTick_playerY, hw1]
    exact (wallCollision_playerY_bounds w1).2

/-- Witness for C1: one thrust tick from the state resting on the upper wall
integrates the offset to 93/50 > 9/5 and triggers the wall resolution. -/
theorem c1_wall_resolution_witness :
    9/5 < |w1Wall.playerY| ∧
    ((wallCollision w1Wall).life = max 0 (w1Wall.life - 10) ∧
     (wallCollision w1Wall).playerVelocity = -(SignType.sign w1Wall.playerY : ℚ) * (3/50) ∧
     (updateGame (1667/100) true rng0 wWall).playerVelocity = (wallCollision w1Wall).playerVelocity ∧
     (updateGame (1667/100) true rng0 wWall).playerY = max (-(9/5)) (min (9/5) w1Wall.playerY) ∧
     -(9/5) ≤ (updateGame (1667/100) true rng0 wWall).playerY ∧
     (updateGame (1667/100) true rng0 wWall).playerY ≤ 9/5) := by
  have hy : w1Wall.playerY = 93/50 := by
    norm_num [w1Wall, wWall, playerMove, clampV, accel, norm60]
  have hoff : 9/5 < |w1Wall.playerY| := by
    rw [hy]
    rw [abs_of_pos (by norm_num)]
    norm_num
  exact ⟨hoff, c1_wall_resolution wWall w1Wall (1667/100) true rng0 rfl rfl rfl hoff⟩

/-- C10: the GAME_OVER transition is evaluated only once, at the very end of
the tick: on every RUNNING tick the camera advances by the full speed * dt/16.67
regardless of when life reached 0, the reported score is the floor of the
advanced camera distance, elapsed time and speed are still updated, and the
game keeps running after the tick exactly when end-of-tick life is positive. -/
theorem c10_game_over_last (w : World) (dt : ℚ) (thrust : Bool) (rng : SpawnRng)
    (hT : w.showTitle = false) (hR : w.gameRunning = true) :
    (updateGame dt thrust rng w).cameraZ = w.cameraZ + w.speed * norm60 dt ∧
    (updateGame dt thrust rng w).score =
      Int.floor ((updateGame dt thrust rng w).cameraZ * 10) ∧
    (updateGame dt thrust rng w).time = w.time + dt ∧
    (updateGame dt thrust rng w).speed = 1/50 + (w.time + dt) * (1/100000) ∧
    ((updateGame dt thrust rng w).gameRunning = true ↔
      0 < (updateGame dt thrust rng w).life) := by
  rw [updateGame_run dt thrust rng w hT hR]
  refine ⟨runTick_cameraZ dt thrust rng w, ?_, runTick_time dt thrust rng w,
    runTick_speed dt thrust rng w, ?_⟩
  · rw [runTick_score, runTick_cameraZ]
  · rw [runTick_gameRunning]
    by_cases hle : (runTick dt thrust rng w).life ≤ 0
    · rw [if_pos hle]
      constructor
      · intro hfalse; exact absurd hfalse (by simp)
      · intro hpos; linarith
    · rw [if_neg hle, hR]
      exact ⟨fun _ => lt_of_not_le hle, fun _ => rfl⟩

/-- Witness for C10: a tick from a state with 10 life pinned on the wall:
life reaches 0 at the wall step, yet the camera, score, time and speed all
advance and the phase flips only at the end of the tick. -/
theorem c10_game_over_last_witness :
    (updateGame (1667/100) true rng0 wWall).cameraZ = wWall.cameraZ + wWall.speed * norm60 (1667/100) ∧
    (updateGame (1667/100) true rng0 wWall).score =
      Int.floor ((updateGame (1667/100) true rng0 wWall).cameraZ * 10) ∧
    (updateGame (1667/100) true rng0 wWall).time = wWall.time + 1667/100 ∧
    (updateGame (1667/100) true rng0 wWall).speed = 1/50 + (wWall.time + 1667/100) * (1/100000) ∧
    ((updateGame (1667/100) true rng0 wWall).gameRunning = true ↔
      0 < (updateGame (1667/100) true rng0 wWall).life) :=
  c10_game_over_last wWall (1667/100) true rng0 rfl rfl

/-! ### C5: removal during iteration skips the next obstacle -/

/-- First obstacle of the C5 failing input: already 6 units behind the camera,
so it is pruned this tick. -/
def oBehindA : Obstacle :=
  { x := 0, y := 0, z := -6, rotationX := 0, rotationY := 0, rotationZ := 0,
    rotationSpeedX := 1, rotationSpeedY := 1, rotationSpeedZ := 1 }

/-- Second obstacle of the C5 failing input: 7 units behind the camera with a
nonzero rotation speed; it too satisfies the pruning condition. -/
def oBehindB : Obstacle :=
  { x := 0, y := 0, z := -7, rotationX := 0, rotationY := 0, rotationZ := 0,
    rotationSpeedX := 1, rotationSpeedY := 1, rotationSpeedZ := 1 }

/-- A RUNNING state holding the two behind-camera obstacles. -/
def wSkip : World :=
  { life := 100, score := 0, speed := 1/50, playerY := 0, playerVelocity := 0,
    gameRunning := true, showTitle := false, time := 0,
    cameraY := 0, cameraZ := 0, obstacles := [oBehindA, oBehindB] }

/-- C5 (refuted by the code, documenting the latent bug the spec flags in its
design notes): after one tick from wSkip the first behind-camera obstacle is
spliced out, which shifts the second one onto the just-visited index, so the
loop never processes it: it survives the tick even though its pruning
condition holds at the end-of-tick camera position, and its rotation was never
advanced despite its nonzero rotation speed. -/
theorem c5_removal_skips_next :
    (updateGame (1667/100) false rng0 wSkip).obstacles = [oBehindB] ∧
    oBehindB.z < (updateGame (1667/100) false rng0 wSkip).cameraZ - 5 ∧
    oBehindB.rotationX = 0 ∧ oBehindB.rotationSpeedX = 1 := by
  refine ⟨?_, ?_, rfl, rfl⟩
  · norm_num [updateGame, runTick, gameOverCheck, obstaclesStep, obstaclesIter,
      processObstacle, spawnStep, spawnObstacle, speedUpdate, scoreUpdate, cameraUpdate,
      wallCollision, wallHit, playerMove, clampV, accel, norm60, getDifficultyMultiplier,
      rotateObstacle, collides, wSkip, rng0, oBehindA, oBehindB, List.eraseIdx]
  · norm_num [updateGame, runTick, gameOverCheck, obstaclesStep, obstaclesIter,
      processObstacle, spawnStep, spawnObstacle, speedUpdate, scoreUpdate, cameraUpdate,
      wallCollision, wallHit, playerMove, clampV, accel, norm60, getDifficultyMultiplier,
      rotateObstacle, collides, wSkip, rng0, oBehindA, oBehindB, List.eraseIdx]

/-! ### C6: velocity under held thrust -/

/-- A RUNNING state close under the upper wall with a small positive velocity,
not yet saturated. -/
def wC6 : World :=
  { life := 100, score := 0, speed := 1/50, playerY := 1799/1000, playerVelocity := 1/250,
    gameRunning := true, showTitle := false, time := 0,
    cameraY := 0, cameraZ := 0, obstacles := [] }

/-- Counterexample to C6 as stated: a single RUNNING tick with thrust held,
starting below saturation (velocity 1/250 < 3/50), on which playerVelocity
strictly decreases (the wall rebound resets it to -0.06 before it ever
reached +Vmax). -/
theorem c6_counterexample :
    wC6.gameRunning = true ∧ wC6.showTitle = false ∧
    wC6.playerVelocity < 3/50 ∧
    (updateGame (1667/100) true rng0 wC6).playerVelocity < wC6.playerVelocity := by
  refine ⟨rfl, rfl, by norm_num [wC6], ?_⟩
  norm_num [updateGame, runTick, gameOverCheck, obstaclesStep, obstaclesIter,
    processObstacle, spawnStep, spawnObstacle, speedUpdate, scoreUpdate, cameraUpdate,
    wallCollision, wallHit, playerMove, clampV, accel, norm60, getDifficultyMultiplier,
    wC6, rng0]

/-- C6 amended: on a RUNNING tick with thrust held, playerVelocity never ends
above Vmax = 0.06; and whenever the tick does not trigger a wall collision,
playerVelocity is non-decreasing (it increases by the acceleration step up to
the clamp).  A wall collision may reset the velocity to the rebound value and
break monotonicity, as the counterexample shows. -/
theorem c6_thrust_velocity (w : World) (dt : ℚ) (rng : SpawnRng)
    (hT : w.showTitle = false) (hR : w.gameRunning = true) (hdt : 0 ≤ dt)
    (hv : w.playerVelocity ≤ 3/50) :
    (updateGame dt true rng w).playerVelocity ≤ 3/50 ∧
    (¬ wallHit (playerMove true dt { w with time := w.time + dt }) →
      w.playerVelocity ≤ (updateGame dt true rng w).playerVelocity) := by
  rw [updateGame_run dt true rng w hT hR, runTick_playerVelocity]
  constructor
  · exact wallCollision_playerVelocity_le _ (clampV_le _)
  · intro hnw
    unfold wallCollision
    rw [if_neg hnw]
    show w.playerVelocity ≤ clampV (accel true dt w.playerVelocity)
    have hn : 0 ≤ (1/500) * norm60 dt := by
      unfold norm60
      exact mul_nonneg (by norm_num) (div_nonneg hdt (by norm_num))
    unfold clampV accel
    rw [if_pos rfl]
    exact le_trans (le_min hv (by linarith)) (le_max_right _ _)

/-- Witness for the amended C6: the first thrust tick from the fresh running
state triggers no wall collision and the velocity rises from 0. -/
theorem c6_thrust_velocity_witness :
    (¬ wallHit (playerMove true (1667/100)
        { runningWorld with time := runningWorld.time + 1667/100 })) ∧
    (updateGame (1667/100) true rng0 runningWorld).playerVelocity ≤ 3/50 ∧
    (¬ wallHit (playerMove true (1667/100)
        { runningWorld with time := runningWorld.time + 1667/100 }) →
      runningWorld.playerVelocity ≤
        (updateGame (1667/100) true rng0 runningWorld).playerVelocity) := by
  have hnw : ¬ wallHit (playerMove true (1667/100)
      { runningWorld with time := runningWorld.time + 1667/100 }) := by
    norm_num [wallHit, playerMove, clampV, accel, norm60, runningWorld, startGame,
      initialWorld]
  have h := c6_thrust_velocity runningWorld (1667/100) rng0 rfl rfl (by norm_num)
    (by norm_num [runningWorld, startGame, initialWorld])
  exact ⟨hnw, h.1, h.2⟩
